import Mathlib

/-!
Verification of `quantgov.corpora.builtins`: per-document text metrics
(word counter, occurrence counter, Shannon entropy, conditional counter,
sentence length, sentiment analysis) and the corpus sanity check.

Documents are modelled with their text as a `List Char`.  The external NLP
backends (lemmatizer, sentence splitter, sentiment scorer) are opaque
services, modelled as function fields of a `Backend` structure, exactly as
the module consumes them.  Compiled regular expressions received as options
(the `word_pattern` option) are likewise modelled as opaque `findall`
functions, while the two regexes built *inside* the module (the occurrence
pattern over literal terms with the default word-boundary wrapping
template, and the fixed conditional-words pattern) are embedded
operationally below.
-/

/-- A value in an output row: document metrics produce strings (index
fields), integers (counts) and real numbers (entropy, means, sentiment),
the latter modelled as rationals. -/
inductive Value where
  | str : String → Value
  | int : Int → Value
  | rat : ℚ → Value
deriving DecidableEq, Repr

/-- Python exceptions that the module can raise. -/
inductive PyError where
  | runtimeError : String → PyError
  | notImplementedError : PyError
  | zeroDivisionError : PyError
deriving DecidableEq, Repr

/-- A document: an index tuple of identifying fields plus raw text. -/
structure Document where
  index : List String
  text : List Char

/-- A compiled regular expression, as the module consumes one received via
the `word_pattern` option: an opaque `findall` returning the list of
matches. -/
abbrev Regex : Type := List Char → List (List Char)

/-- The lemma cache `ShannonEntropy.lemmas`: a word → lemma mapping. -/
abbrev Cache : Type := List (List Char × List Char)

/-- The external NLP backends (`nltk` / `textblob`), as consumed by the
module: availability flags plus the opaque services.  `log2` models the
floating-point `math.log(x, 2)` used by the entropy formula, as an opaque
real-arithmetic oracle over rationals. -/
structure Backend where
  nltkAvailable : Bool
  textblobAvailable : Bool
  lemmatize : List Char → List Char
  sentences : List Char → List Nat
  sentiment : List Char → ℚ × ℚ
  log2 : ℚ → ℚ

/-- A resolved option set, as the CLI layer hands it to the metrics. -/
structure Args where
  word_pattern : Regex
  terms : List (List Char)
  total_label : Option String
  precision : Nat
  stopwords : List (List Char)
  backend : String

/-! ## Character classes (ASCII fragment of the Python semantics) -/

/-- Python `str.split()` / `\s` whitespace (ASCII fragment):
space, tab, newline, carriage return, vertical tab, form feed. -/
def pyIsSpace (c : Char) : Bool :=
  c.toNat = 32 || c.toNat = 9 || c.toNat = 10 || c.toNat = 13 ||
    c.toNat = 11 || c.toNat = 12

/-- Python `str.lower()` (ASCII fragment): map A-Z to a-z. -/
def pyToLower (c : Char) : Char :=
  if 65 ≤ c.toNat ∧ c.toNat ≤ 90 then Char.ofNat (c.toNat + 32) else c

/-- Regex `\w` (ASCII fragment): letters, digits, underscore. -/
def isWordChar (c : Char) : Bool :=
  (48 ≤ c.toNat && c.toNat ≤ 57) || (65 ≤ c.toNat && c.toNat ≤ 90) ||
    (97 ≤ c.toNat && c.toNat ≤ 122) || c.toNat = 95

/-- Is the character at position `i` a word character (out of range: no)? -/
def wordAt (s : List Char) (i : Nat) : Bool :=
  match s.get? i with
  | some c => isWordChar c
  | none => false

/-- Regex `\b` holds at position `i` iff exactly one of the neighbouring
positions `i - 1`, `i` holds a word character. -/
def isBoundary (s : List Char) (i : Nat) : Bool :=
  (if i = 0 then false else wordAt s (i - 1)) != wordAt s i

/-- Does the literal `t` occur in `s` starting at position `i`? -/
def litAt (s : List Char) (i : Nat) (t : List Char) : Bool :=
  decide (((s.drop i).take t.length) = t)

/-! ## Python string primitives used by the module -/

/-- Worker for `str.split()`: split on whitespace runs, dropping empty
pieces; `acc` holds the current word reversed. -/
def splitWsAux : List Char → List Char → List (List Char)
  | [], acc => if acc = [] then [] else [acc.reverse]
  | c :: rest, acc =>
    if pyIsSpace c then
      if acc = [] then splitWsAux rest []
      else acc.reverse :: splitWsAux rest []
    else splitWsAux rest (c :: acc)

/-- Python `str.split()` (no separator): whitespace-run splitting. -/
def pySplitWs (s : List Char) : List (List Char) :=
  splitWsAux s []

/-- Python `' '.join(pieces)`. -/
def joinSpace : List (List Char) → List Char
  | [] => []
  | [w] => w
  | w :: ws => w ++ ' ' :: joinSpace ws

/-- Worker for `str.splitlines()`, handling the line breaks
`\r\n`, `\n` and `\r`. -/
def splitlinesAux : List Char → List Char → List (List Char)
  | [], acc => if acc = [] then [] else [acc.reverse]
  | '\r' :: '\n' :: rest, acc => acc.reverse :: splitlinesAux rest []
  | '\n' :: rest, acc => acc.reverse :: splitlinesAux rest []
  | '\r' :: rest, acc => acc.reverse :: splitlinesAux rest []
  | c :: rest, acc => splitlinesAux rest (c :: acc)

/-- Python `str.splitlines()` (ASCII line breaks). -/
def pySplitlines (s : List Char) : List (List Char) :=
  splitlinesAux s []

/-- `' '.join(doc.text.split()).lower()`: collapse whitespace runs to
single spaces, strip the ends, and lowercase. -/
def normalizeText (s : List Char) : List Char :=
  (joinSpace (pySplitWs s)).map pyToLower

/-- Python `/` on numbers: true division, raising `ZeroDivisionError` on a
zero denominator. -/
def pyDiv (a b : ℚ) : Except PyError ℚ :=
  if b = 0 then Except.error PyError.zeroDivisionError else Except.ok (a / b)

/-- Round-half-to-even to an integer, the tie-break of Python `round`. -/
def roundHalfToEven (q : ℚ) : Int :=
  if q - Rat.floor q < 1/2 then Rat.floor q
  else if q - Rat.floor q > 1/2 then Rat.floor q + 1
  else if Rat.floor q % 2 = 0 then Rat.floor q else Rat.floor q + 1

/-- Python `round(x, p)` idealized over the rationals: round to `p`
decimal places, ties to even. -/
def pyRound (q : ℚ) (p : Nat) : ℚ :=
  ((roundHalfToEven (q * 10 ^ p) : Int) : ℚ) / 10 ^ p

/-! ## Occurrence counter: `sorted(terms, key=len, reverse=True)` and the
default pattern template applied to the joined alternation -/

/-- Insert a term into a length-descending list, before the first term of
equal or smaller length (stable descending sort by length). -/
def insertDesc (x : List Char) : List (List Char) → List (List Char)
  | [] => [x]
  | y :: ys => if x.length < y.length then y :: insertDesc x ys else x :: y :: ys

/-- `sorted(terms, key=len, reverse=True)`: stable sort by descending
length. -/
def sortTermsDesc (ts : List (List Char)) : List (List Char) :=
  ts.foldr insertDesc []

/-- One match attempt of the compiled occurrence pattern (default template
wrapping the alternation of the sorted literal terms in word boundaries,
with the named group capturing the term) at position `i`: the alternatives
are tried in order, an alternative succeeding only when both the literal
and the trailing boundary match. -/
def occMatchAt (termsSorted : List (List Char)) (s : List Char) (i : Nat) :
    Option (List Char) :=
  if isBoundary s i then
    termsSorted.find? (fun t => litAt s i t && isBoundary s (i + t.length))
  else none

/-- `finditer` scan: try each position left to right, record the matched
group, and resume after the match (one past it for an empty match). -/
def occScanAux (termsSorted : List (List Char)) (s : List Char) :
    Nat → Nat → List (List Char)
  | 0, _ => []
  | fuel + 1, i =>
    if s.length < i then []
    else
      match occMatchAt termsSorted s i with
      | some t =>
        if t.length = 0 then t :: occScanAux termsSorted s fuel (i + 1)
        else t :: occScanAux termsSorted s fuel (i + t.length)
      | none => occScanAux termsSorted s fuel (i + 1)

/-- All matched groups of the occurrence pattern over `s`, in order. -/
def occFindall (termsSorted : List (List Char)) (s : List Char) :
    List (List Char) :=
  occScanAux termsSorted s (s.length + 2) 0

/-! ## Conditional counter: the fixed compiled pattern -/

/-- An element of a literal-with-flexible-whitespace alternative:
a literal character or `\s+`. -/
inductive PatElem where
  | lit : Char → PatElem
  | ws : PatElem

/-- The number of leading whitespace characters of a list. -/
def leadingWs : List Char → Nat
  | [] => 0
  | c :: rest => if pyIsSpace c then leadingWs rest + 1 else 0

/-- Match the elements of one alternative starting at position `i`,
returning the end position on success.  `\s+` consumes the maximal
whitespace run, which is exact here because in every alternative of the
fixed pattern `\s+` is followed by a non-whitespace literal. -/
def patMatchLen (s : List Char) : List PatElem → Nat → Option Nat
  | [], i => some i
  | PatElem.lit c :: rest, i =>
    if s.get? i = some c then patMatchLen s rest (i + 1) else none
  | PatElem.ws :: rest, i =>
    let n := leadingWs (s.drop i)
    if n = 0 then none else patMatchLen s rest (i + n)

/-- The characters of a string as literal pattern elements. -/
def lits (s : String) : List PatElem :=
  s.toList.map PatElem.lit

/-- The alternatives of the fixed conditional pattern, in source order:
`if`, `but`, `except`, `provided`, `when`, `where`, `whenever`, `unless`,
`notwithstanding`, `in\s+the\s+event`, `in\s+no\s+event`. -/
def condAlternatives : List (List PatElem) :=
  [ lits ("if"), lits ("but"), lits ("except"), lits ("provided"),
    lits ("when"), lits ("where"), lits ("whenever"), lits ("unless"),
    lits ("notwithstanding"),
    lits ("in") ++ PatElem.ws :: lits ("the") ++ PatElem.ws :: lits ("event"),
    lits ("in") ++ PatElem.ws :: lits ("no") ++ PatElem.ws :: lits ("event") ]

/-- One match attempt of the fixed conditional pattern at position `i`:
word boundary, then the first alternative that matches with a trailing
word boundary; returns the end position. -/
def condMatchAt (s : List Char) (i : Nat) : Option Nat :=
  if isBoundary s i then
    condAlternatives.findSome? (fun alt =>
      match patMatchLen s alt i with
      | some j => if isBoundary s j then some j else none
      | none => none)
  else none

/-- `findall` scan for the conditional pattern: number of non-overlapping
matches, scanning left to right. -/
def condScanAux (s : List Char) : Nat → Nat → Nat
  | 0, _ => 0
  | fuel + 1, i =>
    if s.length < i then 0
    else
      match condMatchAt s i with
      | some j =>
        if i < j then 1 + condScanAux s fuel j
        else 1 + condScanAux s fuel (i + 1)
      | none => condScanAux s fuel (i + 1)

/-- Total number of matches of the fixed conditional pattern in `s`. -/
def condCount (s : List Char) : Nat :=
  condScanAux s (s.length + 2) 0

/-! ## The lemma cache -/

/-- Dictionary lookup in the lemma cache. -/
def cacheFind : Cache → List Char → Option (List Char)
  | [], _ => none
  | (k, v) :: rest, w => if k = w then some v else cacheFind rest w

/-- `ShannonEntropy.lemmatize`: return the cached lemma if present,
otherwise lemmatize through the backend and record the result. -/
def ShannonEntropy.lemmatize (b : Backend) (c : Cache) (w : List Char) :
    List Char × Cache :=
  match cacheFind c w with
  | some l => (l, c)
  | none => (b.lemmatize w, (w, b.lemmatize w) :: c)

/-- Lemmatize a list of words left to right, threading the cache. -/
def lemmatizeAll (b : Backend) : Cache → List (List Char) →
    List (List Char) × Cache
  | c, [] => ([], c)
  | c, w :: ws =>
    ((ShannonEntropy.lemmatize b c w).1 ::
        (lemmatizeAll b (ShannonEntropy.lemmatize b c w).2 ws).1,
      (lemmatizeAll b (ShannonEntropy.lemmatize b c w).2 ws).2)

/-- The lemma a single `lemmatize` call yields for `w` under cache `c`. -/
def cacheLemma (b : Backend) (c : Cache) (w : List Char) : List Char :=
  match cacheFind c w with
  | some l => l
  | none => b.lemmatize w

/-! ## The metrics -/

/-- `WordCounter.get_columns`. -/
def WordCounter.get_columns : List String :=
  ["words"]

/-- `WordCounter.process_document`: the document index followed by the
number of matches of the word pattern in the text. -/
def WordCounter.process_document (doc : Document) (word_pattern : Regex) :
    List Value :=
  doc.index.map Value.str ++ [Value.int ((word_pattern doc.text).length)]

/-- `OccurrenceCounter.get_columns`: the terms, plus the total label when
one is given. -/
def OccurrenceCounter.get_columns (terms : List (List Char))
    (total_label : Option String) : List String :=
  match total_label with
  | some lbl => terms.map (fun t => String.mk t) ++ [lbl]
  | none => terms.map (fun t => String.mk t)

/-- `OccurrenceCounter.process_document`: normalize the text (collapse
whitespace, lowercase), sort the terms by descending length, run the
combined pattern, count each matched group, and emit one count per term in
the caller-given order, plus the sum of all counts when a total label is
given (the sum of the counter values is the total number of matches). -/
def OccurrenceCounter.process_document (doc : Document)
    (terms : List (List Char)) (total_label : Option String) : List Value :=
  let text := normalizeText doc.text
  let found := occFindall (sortTermsDesc terms) text
  match total_label with
  | some _ =>
    doc.index.map Value.str ++ terms.map (fun t => Value.int (found.count t))
      ++ [Value.int found.length]
  | none =>
    doc.index.map Value.str ++ terms.map (fun t => Value.int (found.count t))

/-- `ShannonEntropy.get_columns`. -/
def ShannonEntropy.get_columns : List String :=
  ["shannon_entropy"]

/-- `ShannonEntropy.process_document`: after the `check_nltk` and
`check_textblob` gates, tokenize with the word pattern, lemmatize through
the cache, drop stopword lemmas, and return the rounded entropy of the
frequency distribution of the remaining lemmas.  The per-count summand
divides by the number of retained lemmas; with no retained lemmas the sum
ranges over an empty distribution, so no division is evaluated. -/
def ShannonEntropy.process_document (b : Backend) (cache : Cache)
    (doc : Document) (word_pattern : Regex) (precision : Nat)
    (stopwords : List (List Char)) : Except PyError (List Value) :=
  if b.nltkAvailable = false then
    Except.error (PyError.runtimeError
      ("Must install NLTK to use ShannonEntropy.process_document"))
  else if b.textblobAvailable = false then
    Except.error (PyError.runtimeError
      ("Must install textblob to use ShannonEntropy.process_document"))
  else
    let words := word_pattern doc.text
    let lemmas := ((lemmatizeAll b cache words).1).filter
      (fun l => decide (l ∉ stopwords))
    let counts := lemmas.eraseDups.map (fun l => lemmas.count l)
    let entropy : ℚ := (counts.map (fun cnt =>
      -(((cnt : ℚ) / (lemmas.length : ℚ)) *
        b.log2 ((cnt : ℚ) / (lemmas.length : ℚ))))).sum
    Except.ok (doc.index.map Value.str ++ [Value.rat (pyRound entropy precision)])

/-- `ConditionalCounter.get_columns`. -/
def ConditionalCounter.get_columns : List String :=
  ["conditionals"]

/-- `ConditionalCounter.process_document`: count the matches of the fixed
conditional pattern over `' '.join(doc.text.splitlines())`. -/
def ConditionalCounter.process_document (doc : Document) : List Value :=
  doc.index.map Value.str ++
    [Value.int (condCount (joinSpace (pySplitlines doc.text)))]

/-- `SentenceLength.get_columns`. -/
def SentenceLength.get_columns : List String :=
  ["sentence_length"]

/-- `SentenceLength.process_document`: after the dependency gates, split
into sentences, and divide the total word count by the number of
sentences (Python `/`, raising `ZeroDivisionError` on zero sentences),
rounding when `precision` is truthy. -/
def SentenceLength.process_document (b : Backend) (doc : Document)
    (precision : Nat) : Except PyError (List Value) :=
  if b.nltkAvailable = false then
    Except.error (PyError.runtimeError
      ("Must install NLTK to use SentenceLength.process_document"))
  else if b.textblobAvailable = false then
    Except.error (PyError.runtimeError
      ("Must install textblob to use SentenceLength.process_document"))
  else
    let sentences := b.sentences doc.text
    match pyDiv ((sentences.sum : ℚ)) ((sentences.length : ℚ)) with
    | Except.error e => Except.error e
    | Except.ok mean =>
      if precision ≠ 0 then
        Except.ok (doc.index.map Value.str ++ [Value.rat (pyRound mean precision)])
      else
        Except.ok (doc.index.map Value.str ++ [Value.rat mean])

/-- `SentimentAnalysis.get_columns`: the two sentiment columns for the
`textblob` backend, `NotImplementedError` for every other backend. -/
def SentimentAnalysis.get_columns (backend : String) :
    Except PyError (List String) :=
  if backend = "textblob" then
    Except.ok ["sentiment_polarity", "sentiment_subjectivity"]
  else Except.error PyError.notImplementedError

/-- `SentimentAnalysis.process_document`: after the dependency gates, for
the `textblob` backend score the text and emit polarity and subjectivity
(rounded when `precision` is truthy); for any other backend the function
body falls through and returns `None`. -/
def SentimentAnalysis.process_document (b : Backend) (doc : Document)
    (backend : String) (precision : Nat) :
    Except PyError (Option (List Value)) :=
  if b.nltkAvailable = false then
    Except.error (PyError.runtimeError
      ("Must install NLTK to use SentimentAnalysis.process_document"))
  else if b.textblobAvailable = false then
    Except.error (PyError.runtimeError
      ("Must install textblob to use SentimentAnalysis.process_document"))
  else if backend = "textblob" then
    let s := b.sentiment doc.text
    if precision ≠ 0 then
      Except.ok (some (doc.index.map Value.str ++
        [Value.rat (pyRound s.1 precision), Value.rat (pyRound s.2 precision)]))
    else
      Except.ok (some (doc.index.map Value.str ++
        [Value.rat s.1, Value.rat s.2]))
  else Except.ok none

/-- `SanityCheck.raise_warning`: with `words` the metadata table's `words`
column, warn iff the number of rows at the minimum `words` value exceeds
`cutoff` times the row count (`np.min` of an empty column raises, hence
`none` on an empty table). -/
def SanityCheck.raise_warning (words : List Int) (cutoff : ℚ) : Option Bool :=
  match words.min? with
  | none => none
  | some m =>
    some (decide
      ((((words.filter (fun w => w = m)).length : ℚ)) > cutoff * (words.length : ℚ)))

/-! ## The registry -/

/-- A registered document metric: its public name, its output-schema
function and its per-document transform, both over a resolved option set.
A transform may raise (`Except.error`) or, like `SentimentAnalysis` on an
unrecognized backend, fall through and return `None` (`Except.ok none`). -/
structure Metric where
  name : String
  get_columns : Args → Except PyError (List String)
  process_document : Backend → Cache → Document → Args →
    Except PyError (Option (List Value))

/-- The `count_words` registry entry. -/
def wordCounterMetric : Metric where
  name := "count_words"
  get_columns := fun _ => Except.ok WordCounter.get_columns
  process_document := fun _ _ doc args =>
    Except.ok (some (WordCounter.process_document doc args.word_pattern))

/-- The `count_occurrences` registry entry. -/
def occurrenceCounterMetric : Metric where
  name := "count_occurrences"
  get_columns := fun args =>
    Except.ok (OccurrenceCounter.get_columns args.terms args.total_label)
  process_document := fun _ _ doc args =>
    Except.ok (some
      (OccurrenceCounter.process_document doc args.terms args.total_label))

/-- The `shannon_entropy` registry entry. -/
def shannonEntropyMetric : Metric where
  name := "shannon_entropy"
  get_columns := fun _ => Except.ok ShannonEntropy.get_columns
  process_document := fun b cache doc args =>
    (ShannonEntropy.process_document b cache doc args.word_pattern
      args.precision args.stopwords).map some

/-- The `count_conditionals` registry entry. -/
def conditionalCounterMetric : Metric where
  name := "count_conditionals"
  get_columns := fun _ => Except.ok ConditionalCounter.get_columns
  process_document := fun _ _ doc _ =>
    Except.ok (some (ConditionalCounter.process_document doc))

/-- The `sentence_length` registry entry. -/
def sentenceLengthMetric : Metric where
  name := "sentence_length"
  get_columns := fun _ => Except.ok SentenceLength.get_columns
  process_document := fun b _ doc args =>
    (SentenceLength.process_document b doc args.precision).map some

/-- The `sentiment_analysis` registry entry. -/
def sentimentAnalysisMetric : Metric where
  name := "sentiment_analysis"
  get_columns := fun args => SentimentAnalysis.get_columns args.backend
  process_document := fun b _ doc args =>
    SentimentAnalysis.process_document b doc args.backend args.precision

/-- The registry of document metrics, in registration order.  (The module
also registers `check_sanity`; `SanityCheck` is a corpus-level reducer
with no `get_columns` / `process_document` interface and is modelled by
`SanityCheck.raise_warning` above.) -/
def commands : List Metric :=
  [wordCounterMetric, occurrenceCounterMetric, shannonEntropyMetric,
   conditionalCounterMetric, sentenceLengthMetric, sentimentAnalysisMetric]

/-! ## Concrete instances used to exercise the definitions -/

/-- A backend with both dependencies installed; the lemmatizer is the
identity, every text has one five-word sentence. -/
def sampleBackend : Backend where
  nltkAvailable := true
  textblobAvailable := true
  lemmatize := fun w => w
  sentences := fun _ => [5]
  sentiment := fun _ => (1/2, 1/4)
  log2 := fun _ => 0

/-- A backend with both dependencies installed whose sentence splitter
finds no sentences in any text. -/
def noSentenceBackend : Backend where
  nltkAvailable := true
  textblobAvailable := true
  lemmatize := fun w => w
  sentences := fun _ => []
  sentiment := fun _ => (0, 0)
  log2 := fun _ => 0

/-- A backend for which `nltk` failed to import. -/
def noNltkBackend : Backend where
  nltkAvailable := false
  textblobAvailable := true
  lemmatize := fun w => w
  sentences := fun _ => [5]
  sentiment := fun _ => (0, 0)
  log2 := fun _ => 0

/-- A backend for which `textblob` failed to import. -/
def noTextblobBackend : Backend where
  nltkAvailable := true
  textblobAvailable := false
  lemmatize := fun w => w
  sentences := fun _ => [5]
  sentiment := fun _ => (0, 0)
  log2 := fun _ => 0

/-- A resolved option set with the defaults relevant here: the default
word pattern is opaque, precision 2, the textblob sentiment backend. -/
def sampleArgs : Args where
  word_pattern := fun s => pySplitWs s
  terms := []
  total_label := none
  precision := 2
  stopwords := []
  backend := "textblob"

/-- The lemma cache is consistent with the backend lemmatizer: every
cached entry maps a word to its backend lemma. -/
def CacheConsistent (b : Backend) (c : Cache) : Prop :=
  ∀ p ∈ c, p.2 = b.lemmatize p.1

/-- Claim C1: for every metric in the registry, every document and every
resolved option set accepted by `get_columns`, a row returned by
`process_document` has length `len(doc.index) + len(get_columns(opts))`. -/
theorem registry_row_length (m : Metric) (hm : m ∈ commands) (b : Backend)
    (cache : Cache) (doc : Document) (args : Args) (cols : List String)
    (row : List Value) (hc : m.get_columns args = Except.ok cols)
    (hp : m.process_document b cache doc args = Except.ok (some row)) :
    row.length = doc.index.length + cols.length := by
  simp only [commands, List.mem_cons, List.not_mem_nil, or_false] at hm
  rcases hm with rfl | rfl | rfl | rfl | rfl | rfl
  · simp only [wordCounterMetric, Except.ok.injEq, Option.some.injEq] at hc hp
    subst hc
    subst hp
    simp [WordCounter.process_document, WordCounter.get_columns]
  · simp only [occurrenceCounterMetric, Except.ok.injEq, Option.some.injEq] at hc hp
    subst hc
    subst hp
    cases args.total_label with
    | none =>
      simp [OccurrenceCounter.process_document, OccurrenceCounter.get_columns]
    | some lbl =>
      simp [OccurrenceCounter.process_document, OccurrenceCounter.get_columns,
        Nat.add_assoc]
  · simp only [shannonEntropyMetric, Except.ok.injEq] at hc hp
    subst hc
    cases hn : b.nltkAvailable <;>
      simp only [ShannonEntropy.process_document, hn, reduceIte, Except.map,
        Except.ok.injEq, Option.some.injEq, reduceCtorEq] at hp
    cases ht : b.textblobAvailable <;>
      simp only [ht, reduceIte, Except.map, Except.ok.injEq, Option.some.injEq,
        reduceCtorEq] at hp
    subst hp
    simp [ShannonEntropy.get_columns]
  · simp only [conditionalCounterMetric, Except.ok.injEq, Option.some.injEq] at hc hp
    subst hc
    subst hp
    simp [ConditionalCounter.process_document, ConditionalCounter.get_columns]
  · simp only [sentenceLengthMetric, Except.ok.injEq] at hc hp
    subst hc
    cases hn : b.nltkAvailable <;>
      simp only [SentenceLength.process_document, hn, reduceIte, Except.map,
        reduceCtorEq] at hp
    cases ht : b.textblobAvailable <;>
      simp only [ht, reduceIte, Except.map, reduceCtorEq] at hp
    rcases hs : b.sentences doc.text with _ | ⟨w, ws⟩ <;>
      simp only [hs, pyDiv, List.length_nil, Nat.cast_zero, reduceIte,
        Except.map, reduceCtorEq, List.length_cons] at hp
    have hnz : ((ws.length + 1 : Nat) : ℚ) ≠ 0 := by
      exact_mod_cast Nat.succ_ne_zero ws.length
    rw [if_neg hnz] at hp
    by_cases hpz : args.precision = 0 <;>
      simp only [hpz, ne_eq, not_true_eq_false, not_false_eq_true, reduceIte,
        Except.map, Except.ok.injEq, Option.some.injEq] at hp <;>
      subst hp <;> simp [SentenceLength.get_columns]
  · simp only [sentimentAnalysisMetric] at hc hp
    by_cases hb : args.backend = "textblob" <;>
      simp only [SentimentAnalysis.get_columns, hb, reduceIte, Except.ok.injEq,
        reduceCtorEq] at hc
    subst hc
    cases hn : b.nltkAvailable <;>
      simp only [SentimentAnalysis.process_document, hn, hb, reduceIte,
        reduceCtorEq] at hp
    cases ht : b.textblobAvailable <;>
      simp only [ht, reduceIte, reduceCtorEq] at hp
    by_cases hpz : args.precision = 0 <;>
      simp only [hpz, ne_eq, not_true_eq_false, not_false_eq_true, reduceIte,
        Except.ok.injEq, Option.some.injEq] at hp <;>
      subst hp <;> simp

/-- Witness for `registry_row_length`: the word counter on a concrete
document and option set. -/
theorem registry_row_length_witness :
    wordCounterMetric.get_columns sampleArgs = Except.ok ["words"] ∧
    ([Value.str ("d"), Value.int 2] : List Value).length
      = (["d"] : List String).length + (["words"] : List String).length :=
  ⟨rfl, registry_row_length wordCounterMetric (by simp [commands]) sampleBackend
    ([] : Cache) ⟨["d"], ("a b").toList⟩ sampleArgs ["words"]
    [Value.str ("d"), Value.int 2] rfl rfl⟩

/-- Claim C2: the occurrence counter normalizes whitespace and case, sorts
the terms by descending length so the longer term wins, counts per term in
caller order with 0 for a never-matching term, and appends the sum when a
total label is given.  On the claim's input the value columns are
`(1, 1, 2)`; on the same text a never-matching term counts 0 while
`notice` alone (no longer term shadowing it) counts 2. -/
theorem occurrence_counter_example :
    OccurrenceCounter.process_document
        ⟨["doc1"],
          ("This Notice of Proposed Rulemaking replaces the prior notice.").toList⟩
        [("notice").toList, ("notice of proposed rulemaking").toList]
        (some ("total"))
      = [Value.str ("doc1"), Value.int 1, Value.int 1, Value.int 2] ∧
    OccurrenceCounter.process_document
        ⟨["doc1"],
          ("This Notice of Proposed Rulemaking replaces the prior notice.").toList⟩
        [("notice").toList, ("xyzzy").toList] none
      = [Value.str ("doc1"), Value.int 2, Value.int 0] := by
  exact ⟨by decide, by decide⟩

/-- Counterexample to claim C3: changing the case of a *target term*
changes its count.  The term is matched verbatim against the lowercased
text, so `Notice` counts 0 where `notice` counts 1. -/
theorem occurrence_counter_term_case_counterexample :
    OccurrenceCounter.process_document ⟨[], ("notice").toList⟩
        [("Notice").toList] none = [Value.int 0] ∧
    OccurrenceCounter.process_document ⟨[], ("notice").toList⟩
        [("notice").toList] none = [Value.int 1] := by
  exact ⟨by decide, by decide⟩

/-- `Char.ofNat` on a scalar value below the surrogate range. -/
theorem toNat_ofNat_of_lt {n : Nat} (h : n < 55296) : (Char.ofNat n).toNat = n := by
  rw [Char.ofNat, dif_pos (Or.inl h)]
  rfl

/-- Lowercasing does not change whether a character is whitespace. -/
theorem pyIsSpace_pyToLower (c : Char) : pyIsSpace (pyToLower c) = pyIsSpace c := by
  unfold pyToLower
  split
  · rename_i h
    have hx : (Char.ofNat (c.toNat + 32)).toNat = c.toNat + 32 :=
      toNat_ofNat_of_lt (by omega)
    have h1 : pyIsSpace (Char.ofNat (c.toNat + 32)) = false := by
      simp only [pyIsSpace, hx, Bool.or_eq_false_iff, decide_eq_false_iff_not]
      omega
    have h2 : pyIsSpace c = false := by
      simp only [pyIsSpace, Bool.or_eq_false_iff, decide_eq_false_iff_not]
      omega
    rw [h1, h2]
  · rfl

/-- Whitespace splitting commutes with lowercasing. -/
theorem splitWsAux_map_pyToLower (l : List Char) :
    ∀ acc : List Char, splitWsAux (l.map pyToLower) (acc.map pyToLower)
      = (splitWsAux l acc).map (fun w => w.map pyToLower) := by
  induction l with
  | nil =>
    intro acc
    simp only [List.map_nil, splitWsAux]
    by_cases h : acc = []
    · subst h
      simp
    · rw [if_neg (by simpa using h), if_neg h]
      simp
  | cons c rest ih =>
    intro acc
    simp only [List.map_cons, splitWsAux, pyIsSpace_pyToLower]
    by_cases hsp : pyIsSpace c
    · rw [if_pos hsp, if_pos hsp]
      by_cases h : acc = []
      · subst h
        simpa using ih []
      · rw [if_neg (by simpa using h), if_neg h]
        simpa using ih []
    · rw [if_neg hsp, if_neg hsp]
      exact ih (c :: acc)

/-- Joining with single spaces commutes with lowercasing
(a space lowercases to itself). -/
theorem joinSpace_map_pyToLower (ws : List (List Char)) :
    joinSpace (ws.map (fun w => w.map pyToLower))
      = (joinSpace ws).map pyToLower := by
  induction ws with
  | nil => rfl
  | cons w vs ih =>
    cases vs with
    | nil => rfl
    | cons v vs' =>
      simp only [List.map_cons, joinSpace, List.map_append, List.map_cons] at *
      rw [ih]
      rfl

/-- The normalized text is a function of the lowercased raw text. -/
theorem normalizeText_eq_join_split_lower (s : List Char) :
    normalizeText s = joinSpace (pySplitWs (s.map pyToLower)) := by
  unfold normalizeText pySplitWs
  rw [show splitWsAux (s.map pyToLower) []
        = splitWsAux (s.map pyToLower) (([] : List Char).map pyToLower) from rfl,
    splitWsAux_map_pyToLower, joinSpace_map_pyToLower]

/-- Texts with equal lowercasings normalize identically. -/
theorem normalizeText_eq_of_lower_eq {s1 s2 : List Char}
    (h : s1.map pyToLower = s2.map pyToLower) :
    normalizeText s1 = normalizeText s2 := by
  rw [normalizeText_eq_join_split_lower, normalizeText_eq_join_split_lower, h]

/-- Claim C3, amended: the occurrence counter is case-insensitive in the
*document text* — replacing the text by any text with the same
lowercasing leaves every output column unchanged.  (It is not
case-insensitive in the terms: see the counterexample.) -/
theorem occurrence_counter_text_case_insensitive (doc : Document)
    (s2 : List Char) (terms : List (List Char)) (total_label : Option String)
    (h : doc.text.map pyToLower = s2.map pyToLower) :
    OccurrenceCounter.process_document ⟨doc.index, s2⟩ terms total_label
      = OccurrenceCounter.process_document doc terms total_label := by
  have hnorm : normalizeText s2 = normalizeText doc.text :=
    normalizeText_eq_of_lower_eq h.symm
  simp only [OccurrenceCounter.process_document, hnorm]

/-- Witness for `occurrence_counter_text_case_insensitive`: `NoTiCe` and
`notice` have the same lowercasing, hence the same counts. -/
theorem occurrence_counter_text_case_insensitive_witness :
    (("NoTiCe").toList.map pyToLower = ("notice").toList.map pyToLower) ∧
    OccurrenceCounter.process_document ⟨[], ("notice").toList⟩
        [("notice").toList] none
      = OccurrenceCounter.process_document ⟨[], ("NoTiCe").toList⟩
        [("notice").toList] none :=
  ⟨by decide, occurrence_counter_text_case_insensitive
    ⟨[], ("NoTiCe").toList⟩ (("notice").toList) [("notice").toList] none
    (by decide)⟩

/-- Counterexample to claim C4: on the claim's text the conditional count
is not 4 — the pattern is case-sensitive, so the capitalized `If` does
not match. -/
theorem conditional_counter_counterexample :
    ConditionalCounter.process_document
        ⟨[], ("If the applicant fails, except when provided otherwise.").toList⟩
      ≠ [Value.int 4] := by
  decide

/-- Claim C4, amended: the conditional counter counts non-overlapping
whole-word matches of the fixed, case-sensitive connective set (newlines
normalized to spaces first); on the claim's text the count is 3
(`except`, `when` and `provided` match; the capitalized `If` does not). -/
theorem conditional_counter_example :
    ConditionalCounter.process_document
        ⟨[], ("If the applicant fails, except when provided otherwise.").toList⟩
      = [Value.int 3] := by
  decide

/-- Claim C5: `SentenceLength.process_document` on a document with zero
sentences propagates a raw `ZeroDivisionError` from `sum(...)/len(sentences)`
instead of the explicit handling the claim requires.  (The Shannon-entropy
half of the claim does hold: an all-stopword document yields entropy 0.) -/
theorem sentence_length_zero_sentences_raises :
    SentenceLength.process_document noSentenceBackend ⟨[], []⟩ 2
      = Except.error PyError.zeroDivisionError := by
  simp [SentenceLength.process_document, noSentenceBackend, pyDiv]

/-- Counterexample to claim C6: with its dependencies installed,
`SentimentAnalysis.process_document` on an unrecognized backend does not
fail — the function body falls through and returns `None`. -/
theorem sentiment_unknown_backend_counterexample :
    SentimentAnalysis.process_document sampleBackend ⟨[], []⟩ ("vader") 2
      = Except.ok none := by
  simp [SentimentAnalysis.process_document, sampleBackend]

/-- Claim C6, amended: for every backend value other than `textblob`,
`get_columns` raises `NotImplementedError` (so the failure surfaces at
schema resolution), while `process_document` with dependencies installed
silently returns `None` rather than raising. -/
theorem sentiment_unsupported_backend (b : Backend) (doc : Document)
    (backendStr : String) (precision : Nat) (hb : backendStr ≠ "textblob")
    (hn : b.nltkAvailable = true) (ht : b.textblobAvailable = true) :
    SentimentAnalysis.get_columns backendStr
        = Except.error PyError.notImplementedError ∧
    SentimentAnalysis.process_document b doc backendStr precision
        = Except.ok none := by
  constructor
  · simp [SentimentAnalysis.get_columns, hb]
  · simp [SentimentAnalysis.process_document, hb, hn, ht]

/-- Witness for `sentiment_unsupported_backend` at a concrete unrecognized
backend value. -/
theorem sentiment_unsupported_backend_witness :
    SentimentAnalysis.get_columns ("vader")
        = Except.error PyError.notImplementedError ∧
    SentimentAnalysis.process_document sampleBackend ⟨[], []⟩ ("vader") 2
        = Except.ok none :=
  sentiment_unsupported_backend sampleBackend ⟨[], []⟩ ("vader") 2
    (by decide) rfl rfl

/-- Claim C7: when `nltk` is unavailable each backend-dependent metric
raises a `RuntimeError` naming the missing dependency and the metric; when
`nltk` is available but `textblob` is not, likewise for `textblob`.  In
both cases the result is the error — no partial or zero result. -/
theorem missing_backend_raises (b : Backend) (cache : Cache) (doc : Document)
    (wp : Regex) (precision : Nat) (stopwords : List (List Char))
    (backendStr : String) :
    (b.nltkAvailable = false →
      ShannonEntropy.process_document b cache doc wp precision stopwords
          = Except.error (PyError.runtimeError
            ("Must install NLTK to use ShannonEntropy.process_document")) ∧
      SentenceLength.process_document b doc precision
          = Except.error (PyError.runtimeError
            ("Must install NLTK to use SentenceLength.process_document")) ∧
      SentimentAnalysis.process_document b doc backendStr precision
          = Except.error (PyError.runtimeError
            ("Must install NLTK to use SentimentAnalysis.process_document"))) ∧
    (b.nltkAvailable = true → b.textblobAvailable = false →
      ShannonEntropy.process_document b cache doc wp precision stopwords
          = Except.error (PyError.runtimeError
            ("Must install textblob to use ShannonEntropy.process_document")) ∧
      SentenceLength.process_document b doc precision
          = Except.error (PyError.runtimeError
            ("Must install textblob to use SentenceLength.process_document")) ∧
      SentimentAnalysis.process_document b doc backendStr precision
          = Except.error (PyError.runtimeError
            ("Must install textblob to use SentimentAnalysis.process_document"))) := by
  constructor
  · intro hn
    refine ⟨?_, ?_, ?_⟩ <;>
      simp [ShannonEntropy.process_document, SentenceLength.process_document,
        SentimentAnalysis.process_document, hn]
  · intro hn ht
    refine ⟨?_, ?_, ?_⟩ <;>
      simp [ShannonEntropy.process_document, SentenceLength.process_document,
        SentimentAnalysis.process_document, hn, ht]

/-- Witness for `missing_backend_raises`: a backend without `nltk` and a
backend with `nltk` but without `textblob`, at a concrete document. -/
theorem missing_backend_raises_witness :
    ShannonEntropy.process_document noNltkBackend ([] : Cache) ⟨[], []⟩
        (fun s => pySplitWs s) 2 []
      = Except.error (PyError.runtimeError
        ("Must install NLTK to use ShannonEntropy.process_document")) ∧
    SentenceLength.process_document noTextblobBackend ⟨[], []⟩ 2
      = Except.error (PyError.runtimeError
        ("Must install textblob to use SentenceLength.process_document")) :=
  ⟨(missing_backend_raises noNltkBackend ([] : Cache) ⟨[], []⟩
      (fun s => pySplitWs s) 2 [] ("textblob")).1 rfl |>.1,
    ((missing_backend_raises noTextblobBackend ([] : Cache) ⟨[], []⟩
      (fun s => pySplitWs s) 2 [] ("textblob")).2 rfl rfl).2.1⟩

/-- Claim C8: `raise_warning` is true iff the number of rows at the
minimum `words` value strictly exceeds `cutoff` times the row count; on
the words column `[0, 0, 100]` with cutoff `1/2` it warns.  (The function
is a pure read of the column — the table is never mutated.) -/
theorem sanity_raise_warning_iff (words : List Int) (cutoff : ℚ) (m : Int)
    (hmin : words.min? = some m) :
    SanityCheck.raise_warning words cutoff = some true ↔
      (((words.filter (fun w => w = m)).length : ℚ)
        > cutoff * (words.length : ℚ)) := by
  unfold SanityCheck.raise_warning
  rw [hmin]
  simp [decide_eq_true_iff]

/-- Witness for `sanity_raise_warning_iff` on the claim's concrete table:
two of three rows sit at the minimum 0, and `2 > 1/2 * 3`. -/
theorem sanity_raise_warning_iff_witness :
    SanityCheck.raise_warning [0, 0, 100] (1/2) = some true := by
  rw [sanity_raise_warning_iff [0, 0, 100] (1/2) 0 (by decide)]
  norm_num

/-! ## Cache lemmas for the entropy metric -/

/-- The lemma returned by a single cache-aware `lemmatize` call. -/
theorem lemmatize_fst (b : Backend) (c : Cache) (w : List Char) :
    (ShannonEntropy.lemmatize b c w).1 = cacheLemma b c w := by
  unfold ShannonEntropy.lemmatize cacheLemma
  cases cacheFind c w <;> rfl

/-- A `lemmatize` call only adds backend-consistent entries, so the lemma
any later single call yields is unchanged. -/
theorem cacheLemma_lemmatize_snd (b : Backend) (c : Cache) (w w' : List Char) :
    cacheLemma b (ShannonEntropy.lemmatize b c w).2 w' = cacheLemma b c w' := by
  unfold ShannonEntropy.lemmatize
  cases h : cacheFind c w with
  | some l => rfl
  | none =>
    by_cases hw : w = w'
    · subst hw
      simp [cacheLemma, cacheFind, h]
    · simp [cacheLemma, cacheFind, hw]

/-- The lemmas produced by a run are pointwise the single-call lemmas of
the starting cache. -/
theorem lemmatizeAll_fst (b : Backend) (ws : List (List Char)) :
    ∀ c : Cache, (lemmatizeAll b c ws).1 = ws.map (cacheLemma b c) := by
  induction ws with
  | nil => intro c; rfl
  | cons w ws ih =>
    intro c
    simp only [lemmatizeAll, List.map_cons, lemmatize_fst, ih]
    congr 1
    exact List.map_congr_left (fun w' _ => cacheLemma_lemmatize_snd b c w w')

/-- Under a backend-consistent cache, a single call yields the backend
lemma. -/
theorem cacheLemma_of_consistent (b : Backend) {c : Cache}
    (h : CacheConsistent b c) (w : List Char) :
    cacheLemma b c w = b.lemmatize w := by
  induction c with
  | nil => rfl
  | cons p rest ih =>
    obtain ⟨k, v⟩ := p
    by_cases hk : k = w
    · subst hk
      have hv : v = b.lemmatize k := h (k, v) (List.mem_cons_self _ _)
      simp [cacheLemma, cacheFind, hv]
    · have := ih (fun p hp => h p (List.mem_cons_of_mem _ hp))
      simpa [cacheLemma, cacheFind, hk] using this

/-- Claim C9: the lemma cache changes only latency, never the result —
`ShannonEntropy.process_document` under any backend-consistent cache
equals the run under the empty cache. -/
theorem shannon_entropy_cache_independent (b : Backend) (c : Cache)
    (doc : Document) (wp : Regex) (precision : Nat)
    (stopwords : List (List Char)) (h : CacheConsistent b c) :
    ShannonEntropy.process_document b c doc wp precision stopwords
      = ShannonEntropy.process_document b ([] : Cache) doc wp precision
          stopwords := by
  have hl : (lemmatizeAll b c (wp doc.text)).1
      = (lemmatizeAll b ([] : Cache) (wp doc.text)).1 := by
    rw [lemmatizeAll_fst, lemmatizeAll_fst]
    refine List.map_congr_left (fun w _ => ?_)
    rw [cacheLemma_of_consistent b h w]
    rfl
  simp only [ShannonEntropy.process_document, hl]

/-- Witness for `shannon_entropy_cache_independent`: a concrete consistent
cache for the identity lemmatizer. -/
theorem shannon_entropy_cache_independent_witness :
    CacheConsistent sampleBackend [(("a").toList, ("a").toList)] ∧
    ShannonEntropy.process_document sampleBackend
        [(("a").toList, ("a").toList)] ⟨[], ("a b").toList⟩
        (fun s => pySplitWs s) 2 []
      = ShannonEntropy.process_document sampleBackend ([] : Cache)
        ⟨[], ("a b").toList⟩ (fun s => pySplitWs s) 2 [] :=
  ⟨by intro p hp; rw [List.mem_singleton] at hp; subst hp; rfl,
    shannon_entropy_cache_independent sampleBackend
    [(("a").toList, ("a").toList)] ⟨[], ("a b").toList⟩
    (fun s => pySplitWs s) 2 []
    (by intro p hp; rw [List.mem_singleton] at hp; subst hp; rfl)⟩

/-- Rounding zero to an integer gives zero. -/
theorem roundHalfToEven_zero : roundHalfToEven 0 = 0 := by
  unfold roundHalfToEven
  rw [show Rat.floor 0 = 0 from rfl]
  norm_num

/-- `round(0, p)` is zero at every precision. -/
theorem pyRound_zero (p : Nat) : pyRound 0 p = 0 := by
  unfold pyRound
  rw [zero_mul, roundHalfToEven_zero]
  norm_num

/-- Claim C10: when every tokenized word's lemma is a stopword, no lemma
is retained, the entropy sum ranges over an empty frequency distribution,
and `ShannonEntropy.process_document` returns entropy exactly 0 — no
division is evaluated, so no division error is raised. -/
theorem shannon_entropy_all_stopwords (b : Backend) (c : Cache)
    (doc : Document) (wp : Regex) (precision : Nat)
    (stopwords : List (List Char)) (hn : b.nltkAvailable = true)
    (ht : b.textblobAvailable = true)
    (h : ∀ w ∈ wp doc.text, cacheLemma b c w ∈ stopwords) :
    ShannonEntropy.process_document b c doc wp precision stopwords
      = Except.ok (doc.index.map Value.str ++ [Value.rat 0]) := by
  have hfilter : ((lemmatizeAll b c (wp doc.text)).1).filter
      (fun l => decide (l ∉ stopwords)) = [] := by
    rw [lemmatizeAll_fst]
    rw [List.filter_eq_nil_iff]
    intro a ha
    rcases List.mem_map.mp ha with ⟨w, hw, rfl⟩
    simpa using h w hw
  simp only [ShannonEntropy.process_document, hn, ht, Bool.true_eq_false,
    if_false, hfilter]
  rw [show List.eraseDups ([] : List (List Char)) = [] from rfl]
  simp [pyRound_zero]

/-- Witness for `shannon_entropy_all_stopwords`: a document whose only
token lemmatizes (identically) to the stopword `the`. -/
theorem shannon_entropy_all_stopwords_witness :
    (∀ w ∈ [("the").toList],
      cacheLemma sampleBackend ([] : Cache) w ∈ [("the").toList]) ∧
    ShannonEntropy.process_document sampleBackend ([] : Cache)
        ⟨[], ("the").toList⟩ (fun _ => [("the").toList]) 2 [("the").toList]
      = Except.ok [Value.rat 0] :=
  ⟨by decide, shannon_entropy_all_stopwords sampleBackend ([] : Cache)
    ⟨[], ("the").toList⟩ (fun _ => [("the").toList]) 2 [("the").toList]
    rfl rfl (by decide)⟩
